import Mathlib

/-!
Shallow embedding of the Vehicle-Alert-Data-Analytics dashboard
(`app.py`).  The program loads two CSV files with pandas, cleans and
samples them (`load_data`), and serves a number of read-only chart
routes.  We model:

* CSV cells as an inductive `Cell` (string or numeric), a row as a list
  of optional cells (missing value = `none`, pandas `NaN`), and a frame
  as a column-name list together with its rows;
* `load_data` = concatenation (with the pandas outer column union and
  `NaN` fill), keep-first duplicate removal, `dropna`, and a
  deterministic sample abstracted by the list of row indices the seeded
  generator draws;
* the per-route aggregation pipelines (safety filter, value counts,
  group-by counts, means, the `/speed-analysis` text sort, the
  `/data/coordinates` record mapping);
* the column-typed transformations of the routes that assign columns
  (`alert_frequency`, `home`, `speed_analysis`, `correlation_analysis`)
  on a column-oriented `TFrame`, with the pandas `to_datetime`,
  `dt.day_name`, `dt.hour` and `astype(float)` conversions abstracted by
  explicit parsing functions, and categorical codes computed as ranks in
  the sorted list of distinct values;
* the Pearson correlation matrix of `df.corr()` with entries in
  `Option ℝ` (`none` = `NaN`, produced when a column has zero centered
  sum of squares, exactly the division-by-zero case of the float code).
-/

namespace VAlert

/-- A CSV cell: pandas reads each column either as text or as a number. -/
inductive Cell where
  | str : String → Cell
  | num : ℚ → Cell
deriving DecidableEq

/-- A row of a frame; `none` is a missing value (pandas `NaN`). -/
abbrev Row := List (Option Cell)

/-- A row-oriented data frame: column names plus rows. -/
structure DataFrame where
  cols : List String
  rows : List Row
deriving DecidableEq

/-- Index of a column name in a header list (pandas column lookup). -/
def colIndex? (cols : List String) (c : String) : Option Nat :=
  match cols with
  | [] => none
  | c0 :: rest => if c0 = c then some 0 else (colIndex? rest c).map (· + 1)

/-- Value of row `r` at column `c` (`none` when the column is absent or
the cell is missing). -/
def getCell (cols : List String) (r : Row) (c : String) : Option Cell :=
  match colIndex? cols c with
  | some i => (r.get? i).getD none
  | none => none

/-- Column union of `pd.concat`: the first frame's columns, then the
second frame's new columns in order. -/
def concatCols (c1 c2 : List String) : List String :=
  c1 ++ c2.filter (fun c => decide (c ∉ c1))

/-- Reindex a row from its own header to the union header; columns the
row's frame does not have are filled with `NaN` (pandas outer join). -/
def reindexRow (oldCols newCols : List String) (r : Row) : Row :=
  newCols.map (fun c =>
    match colIndex? oldCols c with
    | some i => (r.get? i).getD none
    | none => none)

/-- `pd.concat([df, df1], axis=0)`: union of the columns, rows of both
frames aligned to the union header. -/
def concatF (a b : DataFrame) : DataFrame :=
  ⟨concatCols a.cols b.cols,
   a.rows.map (reindexRow a.cols (concatCols a.cols b.cols)) ++
     b.rows.map (reindexRow b.cols (concatCols a.cols b.cols))⟩

/-- Worker for keep-first duplicate removal: skips elements already seen. -/
def dedupFirstAux {α : Type} [DecidableEq α] (seen : List α) : List α → List α
  | [] => []
  | a :: l => if a ∈ seen then dedupFirstAux seen l
              else a :: dedupFirstAux (a :: seen) l

/-- `df.drop_duplicates()`: keeps the first occurrence of each row. -/
def dropDuplicates {α : Type} [DecidableEq α] (l : List α) : List α :=
  dedupFirstAux [] l

/-- Does a row contain a missing value in some column? -/
def hasNull (r : Row) : Bool := r.any (fun c => c.isNone)

/-- `df.dropna()`: keep only the rows without missing values. -/
def dropna (rows : List Row) : List Row := rows.filter (fun r => !hasNull r)

/-- `df.sample(frac=0.01, random_state=42)`: the seeded generator draws a
list of distinct row positions; we abstract the draw by the index list
`idxs` (made duplicate-free, as sampling is without replacement) and keep
the rows at those positions. -/
def sampleIdx {α : Type} (idxs : List Nat) (l : List α) : List α :=
  idxs.dedup.filterMap (fun i => l.get? i)

/-- `load_data()`: concatenate the two sources, drop duplicate rows, drop
rows with missing values, then draw the seeded 1% sample. -/
def load_data (a b : DataFrame) (idxs : List Nat) : DataFrame :=
  ⟨(concatF a b).cols,
   sampleIdx idxs (dropna (dropDuplicates (concatF a b).rows))⟩

/-- Modelled from the spec: the spec's Loader contract says loading
"fails with FormatError if expected columns are absent" and that a pair
of files "with zero overlapping schema" fails with FormatError.  No such
check exists in `app.py`; this definition follows the spec's words so the
contract can be compared with the code's `load_data`. -/
def load_data_SPEC (a b : DataFrame) (idxs : List Nat) :
    Except String DataFrame :=
  if a.cols.filter (fun c => decide (c ∈ b.cols)) = [] then
    Except.error "FormatError"
  else Except.ok (load_data a b idxs)

/-- The inner `categorize_speed` function of `/speed-analysis`. -/
def categorize_speed (speed : ℚ) : String :=
  if speed < 60 then "Low"
  else if 60 ≤ speed ∧ speed < 80 then "Medium"
  else "High"

/-- The five safety-critical alert labels filtered by the safety routes. -/
def safetyAlerts : List Cell :=
  [Cell.str "cas_ldw", Cell.str "cas_hmw", Cell.str "hard_brake",
   Cell.str "cas_pcw", Cell.str "cas_fcw"]

/-- `Series.isin`: a missing value is in no list. -/
def cellIsin (o : Option Cell) (l : List Cell) : Bool :=
  match o with
  | some c => decide (c ∈ l)
  | none => false

/-- `df[df['Alert'].isin([...])]` of the safety routes. -/
def safetyFilter (df : DataFrame) : List Row :=
  df.rows.filter (fun r => cellIsin (getCell df.cols r "Alert") safetyAlerts)

/-- Numeric value of a cell, if it is numeric. -/
def cellQ : Option Cell → Option ℚ
  | some (Cell.num q) => some q
  | _ => none

/-- Numeric value of a cell with pandas' float coercion; the text case is
unreachable for the numeric CSV columns this is applied to. -/
def cellNumD : Cell → ℚ
  | Cell.num q => q
  | Cell.str _ => 0

/-- `Series.mean()`: `NaN` on an empty series. -/
def meanQ (l : List ℚ) : Option ℚ :=
  if l.length = 0 then none else some (l.sum / (l.length : ℚ))

/-- The latitude column of the frame, missing values skipped. -/
def latVals (df : DataFrame) : List ℚ :=
  df.rows.filterMap (fun r => cellQ (getCell df.cols r "Lat"))

/-- The longitude column of the frame, missing values skipped. -/
def longVals (df : DataFrame) : List ℚ :=
  df.rows.filterMap (fun r => cellQ (getCell df.cols r "Long"))

/-- The `(Lat, Long)` points handed to `px.density_mapbox`. -/
def spatial_points (df : DataFrame) : List (Option ℚ × Option ℚ) :=
  df.rows.map (fun r =>
    (cellQ (getCell df.cols r "Lat"), cellQ (getCell df.cols r "Long")))

/-- The `mapbox_center` pair `(df['Lat'].mean(), df['Long'].mean())`. -/
def spatial_center (df : DataFrame) : Option ℚ × Option ℚ :=
  (meanQ (latVals df), meanQ (longVals df))

/-- Descending-count order used by `value_counts`. -/
def countGE (p q : Cell × Nat) : Prop := q.2 ≤ p.2

instance : DecidableRel countGE := fun p q => Nat.decLe q.2 p.2

/-- `Series.value_counts()`: distinct values with their multiplicities,
most frequent first (missing values are dropped by the callers below). -/
def value_counts (l : List Cell) : List (Cell × Nat) :=
  List.insertionSort countGE
    ((dropDuplicates l).map (fun a => (a, l.count a)))

/-- Ascending order on cells used for group-by keys (numbers by value,
text lexicographically; the mixed cases are unreachable within one
well-typed column). -/
def cellLE (a b : Cell) : Prop :=
  match a, b with
  | Cell.num x, Cell.num y => x ≤ y
  | Cell.str x, Cell.str y => x ≤ y
  | Cell.num _, Cell.str _ => True
  | Cell.str _, Cell.num _ => False

instance : DecidableRel cellLE := fun a b => by
  unfold cellLE
  match a, b with
  | Cell.num x, Cell.num y => exact inferInstance
  | Cell.str x, Cell.str y => exact inferInstance
  | Cell.num _, Cell.str _ => exact inferInstance
  | Cell.str _, Cell.num _ => exact inferInstance

/-- Sort a list of cells ascending (pandas group-by sorts its keys). -/
def sortCells (l : List Cell) : List Cell := List.insertionSort cellLE l

/-- The alert pie data of `/driver-behavior`:
`df['Alert'].value_counts()`. -/
def driver_alert_counts (df : DataFrame) : List (Cell × Nat) :=
  value_counts (df.rows.filterMap (fun r => getCell df.cols r "Alert"))

/-- The safety pie data of `/safety_analysis`:
`safety_df['Alert'].value_counts()`. -/
def safety_counts (df : DataFrame) : List (Cell × Nat) :=
  value_counts ((safetyFilter df).filterMap
    (fun r => getCell df.cols r "Alert"))

/-- `safety_df.groupby('Speed')['Alert'].count()`: distinct speed keys in
ascending order, each with the number of safety rows carrying a present
alert at that speed. -/
def safety_speed_freq (df : DataFrame) : List (Cell × Nat) :=
  (sortCells (dropDuplicates ((safetyFilter df).filterMap
      (fun r => getCell df.cols r "Speed")))).map
    (fun k => (k, (safetyFilter df).countP
      (fun r => decide (getCell df.cols r "Speed" = some k) &&
        (getCell df.cols r "Alert").isSome)))

/-- The least-squares trend line plotly express fits over the grouped
speed-frequency table; plotly skips the fit unless at least two complete
points exist, hence the guard.  The slope uses total rational division
(the constant-abscissa case degenerates to slope `0`). -/
def ols_trend (pts : List (ℚ × ℚ)) : Option (ℚ × ℚ) :=
  if pts.length ≤ 1 then none
  else
    some ((pts.map (fun p =>
            (p.1 - (pts.map Prod.fst).sum / (pts.length : ℚ)) *
              (p.2 - (pts.map Prod.snd).sum / (pts.length : ℚ)))).sum /
          (pts.map (fun p =>
            (p.1 - (pts.map Prod.fst).sum / (pts.length : ℚ))^2)).sum,
          (pts.map Prod.snd).sum / (pts.length : ℚ))

/-- The trend line of the `/safety_analysis` scatter. -/
def safety_trend (df : DataFrame) : Option (ℚ × ℚ) :=
  ols_trend ((safety_speed_freq df).map
    (fun p => (cellNumD p.1, (p.2 : ℚ))))

/-- The `(Alert, Speed)` pairs behind the `/safety-impact` box plot. -/
def safety_box (df : DataFrame) : List (Option Cell × Option Cell) :=
  (safetyFilter df).map
    (fun r => (getCell df.cols r "Alert", getCell df.cols r "Speed"))

/-- One record of `/data/coordinates`: missing text fields default to the
empty string, missing coordinates to `null`, a missing speed to `0`;
present values pass through unchanged. -/
structure CoordRecord where
  alert : Cell
  date : Cell
  time : Cell
  lat : Option Cell
  long : Option Cell
  vehicle : Cell
  speed : Cell
deriving DecidableEq

/-- The loop body of `get_coordinates`. -/
def coordRecord (alert date time lat long vehicle speed : Option Cell) :
    CoordRecord where
  alert := alert.getD (Cell.str "")
  date := date.getD (Cell.str "")
  time := time.getD (Cell.str "")
  lat := lat
  long := long
  vehicle := vehicle.getD (Cell.str "")
  speed := speed.getD (Cell.num 0)

/-- The `/data/coordinates` route: one record per row of the frame. -/
def get_coordinates (df : DataFrame) : List CoordRecord :=
  df.rows.map (fun r => coordRecord
    (getCell df.cols r "Alert") (getCell df.cols r "Date")
    (getCell df.cols r "Time") (getCell df.cols r "Lat")
    (getCell df.cols r "Long") (getCell df.cols r "Vehicle")
    (getCell df.cols r "Speed"))

/-- Sort key of `df.sort_values(by='Time')` while `Time` is still raw
text: the original string, with missing (and the unreachable non-text)
values ordered last, as pandas places `NaN` last. -/
def timeKey (cols : List String) (r : Row) : WithTop String :=
  match getCell cols r "Time" with
  | some (Cell.str s) => (s : WithTop String)
  | _ => ⊤

/-- Row comparison of the `/speed-analysis` sort: lexicographic on the
raw `Time` strings. -/
def rowTimeLE (cols : List String) (r1 r2 : Row) : Prop :=
  timeKey cols r1 ≤ timeKey cols r2

instance (cols : List String) : DecidableRel (rowTimeLE cols) :=
  fun a b => inferInstanceAs (Decidable (timeKey cols a ≤ timeKey cols b))

instance (cols : List String) : IsTotal Row (rowTimeLE cols) :=
  ⟨fun a b => le_total (timeKey cols a) (timeKey cols b)⟩

instance (cols : List String) : IsTrans Row (rowTimeLE cols) :=
  ⟨fun _ _ _ h1 h2 => le_trans h1 h2⟩

/-- `df_sorted = df.sort_values(by='Time')`: the rows ordered by their
raw time strings. -/
def speed_analysis_sorted (df : DataFrame) : List Row :=
  List.insertionSort (rowTimeLE df.cols) df.rows

/-- Parse a raw time cell to a typed time value
(`pd.to_datetime(..., errors='coerce')`): unparseable text and missing
values become `none`. -/
def parseTimeCell (pt : String → Option ℚ) : Option Cell → Option ℚ
  | some (Cell.str s) => pt s
  | _ => none

/-- The x-axis of the `/speed-analysis` speed-vs-time chart: the rows are
sorted on the raw strings first, and only then is each string coerced, in
place, to a typed time (or `none`). -/
def speed_analysis_timeAxis (pt : String → Option ℚ) (df : DataFrame) :
    List (Option ℚ) :=
  (speed_analysis_sorted df).map
    (fun r => parseTimeCell pt (getCell df.cols r "Time"))

/-- A typed column, as pandas stores one after `read_csv` or a
conversion: floats/ints, text, or datetimes (timestamps as rationals). -/
inductive Col where
  | nums : List (Option ℚ) → Col
  | strs : List (Option String) → Col
  | times : List (Option ℚ) → Col
deriving DecidableEq

/-- A column-oriented frame, used for the routes that assign columns. -/
abbrev TFrame := List (String × Col)

/-- The column names of a column-oriented frame. -/
def names (f : TFrame) : List String := f.map Prod.fst

/-- `df['X'] = col`: replace the column in place if it exists, otherwise
append it at the end (pandas assignment semantics). -/
def setCol (f : TFrame) (n : String) (c : Col) : TFrame :=
  if n ∈ names f then f.map (fun p => if p.1 = n then (n, c) else p)
  else f ++ [(n, c)]

/-- `df.drop([n], axis=1)`. -/
def dropCol (f : TFrame) (n : String) : TFrame :=
  f.filter (fun p => !(p.1 == n))

/-- `df[n]`, with an empty numeric column as the (unreachable for the
routes' fixed schema) default. -/
def getColD (f : TFrame) (n : String) : Col :=
  match f.find? (fun p => p.1 == n) with
  | some p => p.2
  | none => Col.nums []

/-- `.astype('category').cat.codes`: each value becomes its rank in the
sorted list of distinct values; missing values code to `-1`. -/
def catCodes {α : Type} [DecidableEq α] [LinearOrder α]
    (l : List (Option α)) : List (Option ℚ) :=
  l.map (fun o =>
    match o with
    | none => some (-1)
    | some a => some
        (((List.insertionSort (fun x y => x ≤ y)
            (dropDuplicates (l.filterMap id))).indexOf a : ℚ)))

/-- Categorical codes of a column of any dtype. -/
def colCodes : Col → Col
  | Col.nums l => Col.nums (catCodes l)
  | Col.strs l => Col.nums (catCodes l)
  | Col.times l => Col.nums (catCodes l)

/-- `pd.to_datetime` on a column, the text parser abstracted by `pd`
(`none` = `NaT`, covering `errors='coerce'`); numbers are taken as
timestamps directly. -/
def to_datetime (pd : String → Option ℚ) : Col → Col
  | Col.strs l => Col.times (l.map (fun o => o.bind pd))
  | Col.times l => Col.times l
  | Col.nums l => Col.times l

/-- `.dt.day_name()`; the accessor only ever runs on a datetime column
in the routes, the other cases answer an empty column. -/
def dayNameCol (dn : ℚ → String) : Col → Col
  | Col.times l => Col.strs (l.map (fun o => o.map dn))
  | _ => Col.strs []

/-- `.dt.hour`; same remark as for `dayNameCol`. -/
def hourCol (hr : ℚ → ℚ) : Col → Col
  | Col.times l => Col.nums (l.map (fun o => o.map hr))
  | _ => Col.nums []

/-- `.astype(float)`: numbers stay, text is parsed by `pf`. -/
def astypeFloat (pf : String → Option ℚ) : Col → Col
  | Col.nums l => Col.nums l
  | Col.strs l => Col.nums (l.map (fun o => o.bind pf))
  | Col.times l => Col.nums l

/-- The state of the loaded frame after `/alert-frequency` has run: the
handler assigns `Date`, `DayOfWeek`, `Time` and `Speed` on the loaded
frame itself (no copy is taken). -/
def alert_frequency_dfFinal (pd pt : String → Option ℚ) (dn : ℚ → String)
    (pf : String → Option ℚ) (f : TFrame) : TFrame :=
  setCol
    (setCol
      (setCol
        (setCol f "Date" (to_datetime pd (getColD f "Date")))
        "DayOfWeek"
        (dayNameCol dn (getColD
          (setCol f "Date" (to_datetime pd (getColD f "Date"))) "Date")))
      "Time"
      (to_datetime pt (getColD
        (setCol
          (setCol f "Date" (to_datetime pd (getColD f "Date")))
          "DayOfWeek"
          (dayNameCol dn (getColD
            (setCol f "Date" (to_datetime pd (getColD f "Date")))
            "Date"))) "Time")))
    "Speed"
    (astypeFloat pf (getColD
      (setCol
        (setCol
          (setCol f "Date" (to_datetime pd (getColD f "Date")))
          "DayOfWeek"
          (dayNameCol dn (getColD
            (setCol f "Date" (to_datetime pd (getColD f "Date")))
            "Date")))
        "Time"
        (to_datetime pt (getColD
          (setCol
            (setCol f "Date" (to_datetime pd (getColD f "Date")))
            "DayOfWeek"
            (dayNameCol dn (getColD
              (setCol f "Date" (to_datetime pd (getColD f "Date")))
              "Date"))) "Time"))) "Speed"))

/-- The state of the loaded frame after `/` (`home`) has run: the handler
assigns `Date` and `DayOfWeek` on the loaded frame itself. -/
def home_dfFinal (pd : String → Option ℚ) (dn : ℚ → String)
    (f : TFrame) : TFrame :=
  setCol (setCol f "Date" (to_datetime pd (getColD f "Date")))
    "DayOfWeek"
    (dayNameCol dn (getColD
      (setCol f "Date" (to_datetime pd (getColD f "Date"))) "Date"))

/-- The state of the loaded frame after `/speed-analysis` has run: only
`df['Speed'] = df['Speed'].astype(float)` touches the loaded frame (the
sort and the later assignments go to the new `df_sorted`). -/
def speed_analysis_dfFinal (pf : String → Option ℚ) (f : TFrame) :
    TFrame :=
  setCol f "Speed" (astypeFloat pf (getColD f "Speed"))

/-- The state of the loaded frame after `/correlation-analysis` has run:
the handler works on `df1 = df.copy()` and never assigns to `df`, so the
loaded frame is unchanged. -/
def correlation_dfFinal (f : TFrame) : TFrame := f

/-- The transformed copy `df1` of `/correlation-analysis` just before
`df1.drop(['HourOfDay'], axis=1)`: categorical coding of `Alert`,
datetime conversion of `Date`, derivation of `DayOfWeek` and
`HourOfDay`, coding of `Date`, conversion of `Time`, coding of
`DayOfWeek` and of `HourOfDay`, in source order. -/
def correlation_df1_preDrop (pd : String → Option ℚ) (dn : ℚ → String)
    (hr : ℚ → ℚ) (pt : String → Option ℚ) (f : TFrame) : TFrame :=
  let f1 := setCol f "Alert" (colCodes (getColD f "Alert"))
  let f2 := setCol f1 "Date" (to_datetime pd (getColD f1 "Date"))
  let f3 := setCol f2 "DayOfWeek" (dayNameCol dn (getColD f2 "Date"))
  let f4 := setCol f3 "HourOfDay" (hourCol hr (getColD f3 "Date"))
  let f5 := setCol f4 "Date" (colCodes (getColD f4 "Date"))
  let f6 := setCol f5 "Time" (to_datetime pt (getColD f5 "Time"))
  let f7 := setCol f6 "DayOfWeek" (colCodes (getColD f6 "DayOfWeek"))
  setCol f7 "HourOfDay" (colCodes (getColD f7 "HourOfDay"))

/-- The frame `df1` on which `/correlation-analysis` computes
`df1.corr()`, after the `HourOfDay` drop. -/
def correlation_df1 (pd : String → Option ℚ) (dn : ℚ → String)
    (hr : ℚ → ℚ) (pt : String → Option ℚ) (f : TFrame) : TFrame :=
  dropCol (correlation_df1_preDrop pd dn hr pt f) "HourOfDay"

/-- The numeric columns of a frame, in frame order: `df.corr()` uses
exactly these (text and datetime columns are excluded). -/
def numericCols (f : TFrame) : List (String × List (Option ℚ)) :=
  f.filterMap (fun p =>
    match p.2 with
    | Col.nums l => some (p.1, l)
    | _ => none)

/-- The data of the `i`-th numeric column (an empty column out of
range). -/
def colDataAt (cs : List (String × List (Option ℚ))) (i : Nat) :
    List (Option ℚ) :=
  (cs.getD i ("", [])).2

/-- Pairwise-complete observations of two columns: positionally zipped,
keeping the positions where both values are present (pandas `corr`
ignores `NaN` pairs). -/
def somesPairs (x y : List (Option ℚ)) : List (ℚ × ℚ) :=
  (x.zip y).filterMap (fun p =>
    p.1.bind (fun a => p.2.map (fun b => (a, b))))

/-- Mean of the first coordinates of the complete pairs. -/
def meanFst (ps : List (ℚ × ℚ)) : ℚ :=
  (ps.map Prod.fst).sum / (ps.length : ℚ)

/-- Mean of the second coordinates of the complete pairs. -/
def meanSnd (ps : List (ℚ × ℚ)) : ℚ :=
  (ps.map Prod.snd).sum / (ps.length : ℚ)

/-- Centered sum of squares of the first coordinates. -/
def ssFst (ps : List (ℚ × ℚ)) : ℚ :=
  (ps.map (fun p => (p.1 - meanFst ps)^2)).sum

/-- Centered sum of squares of the second coordinates. -/
def ssSnd (ps : List (ℚ × ℚ)) : ℚ :=
  (ps.map (fun p => (p.2 - meanSnd ps)^2)).sum

/-- Centered cross sum of the complete pairs. -/
def sCross (ps : List (ℚ × ℚ)) : ℚ :=
  (ps.map (fun p => (p.1 - meanFst ps) * (p.2 - meanSnd ps))).sum

/-- Centered sum of squares a column contributes to its own diagonal
entry; it is zero exactly when the float code divides by zero. -/
def diagSS (x : List (Option ℚ)) : ℚ := ssFst (somesPairs x x)

/-- The Pearson coefficient of two columns as `df.corr()` computes it:
`NaN` (here `none`) when either centered sum of squares vanishes (the
constant-column and the fewer-than-two-observations cases), otherwise
the usual quotient. -/
noncomputable def pearson (x y : List (Option ℚ)) : Option ℝ :=
  if ssFst (somesPairs x y) = 0 ∨ ssSnd (somesPairs x y) = 0 then none
  else some ((sCross (somesPairs x y) : ℝ) /
    (Real.sqrt (ssFst (somesPairs x y)) * Real.sqrt (ssSnd (somesPairs x y))))

/-- Entry `(i, j)` of the correlation matrix over the numeric columns. -/
noncomputable def corrEntry (cs : List (String × List (Option ℚ)))
    (i j : Nat) : Option ℝ :=
  pearson (colDataAt cs i) (colDataAt cs j)

/-- A correlation matrix: its row labels, column labels, and entries. -/
structure CorrMatrix where
  rowLabels : List String
  colLabels : List String
  entry : Nat → Nat → Option ℝ

/-- `df1.corr()`: a matrix indexed both ways by the numeric column
names. -/
noncomputable def corrMatrix (cs : List (String × List (Option ℚ))) :
    CorrMatrix :=
  ⟨cs.map Prod.fst, cs.map Prod.fst, corrEntry cs⟩

/-- The matrix `/correlation-analysis` returns to the caller. -/
noncomputable def correlation_matrix (pd : String → Option ℚ)
    (dn : ℚ → String) (hr : ℚ → ℚ) (pt : String → Option ℚ)
    (f : TFrame) : CorrMatrix :=
  corrMatrix (numericCols (correlation_df1 pd dn hr pt f))

/-- Concrete one-column frame `A` for the zero-overlap loader run. -/
def exA : DataFrame := ⟨["A"], [[some (Cell.str "x")]]⟩

/-- Concrete one-column frame `B` for the zero-overlap loader run. -/
def exB : DataFrame := ⟨["B"], [[some (Cell.str "y")]]⟩

/-- Concrete single-row source frame used by loader witnesses. -/
def exC1a : DataFrame := ⟨["Speed"], [[some (Cell.num 50)]]⟩

/-- Concrete empty companion frame used by loader witnesses. -/
def exC1b : DataFrame := ⟨["Speed"], []⟩

/-- Concrete loaded frame with no rows, for the empty-dataset clauses. -/
def dfEmpty : DataFrame :=
  ⟨["Vehicle", "Date", "Time", "Lat", "Long", "Speed", "Alert"], []⟩

/-- Concrete loaded frame with one safety row. -/
def dfS : DataFrame := ⟨["Alert"], [[some (Cell.str "cas_ldw")]]⟩

/-- Concrete date parser standing in for `pd.to_datetime`. -/
def pdEx : String → Option ℚ := fun _ => some 0

/-- Concrete day-name function standing in for `dt.day_name()`. -/
def dnEx : ℚ → String := fun _ => "Monday"

/-- Concrete hour function standing in for `dt.hour`. -/
def hrEx : ℚ → ℚ := fun _ => 0

/-- Concrete time parser standing in for `pd.to_datetime` on `Time`. -/
def ptEx : String → Option ℚ := fun _ => some 0

/-- Concrete float parser standing in for `astype(float)`. -/
def pfEx : String → Option ℚ := fun _ => some 0

/-- Concrete loaded two-row frame whose `Speed` column is constant: its
rows are distinct and null-free, so it satisfies the load invariants. -/
def fC6 : TFrame :=
  [("Vehicle", Col.strs [some "v1", some "v2"]),
   ("Date", Col.strs [some "d1", some "d2"]),
   ("Time", Col.strs [some "t1", some "t2"]),
   ("Lat", Col.nums [some 1, some 2]),
   ("Long", Col.nums [some 3, some 4]),
   ("Speed", Col.nums [some 50, some 50]),
   ("Alert", Col.strs [some "cas_ldw", some "hard_brake"])]

/-- Concrete loaded frame (standard schema, one row) for the mutation
counterexample. -/
def fC9 : TFrame :=
  [("Vehicle", Col.strs [some "v1"]),
   ("Date", Col.strs [some "d1"]),
   ("Time", Col.strs [some "t1"]),
   ("Lat", Col.nums [some 1]),
   ("Long", Col.nums [some 3]),
   ("Speed", Col.nums [some 50]),
   ("Alert", Col.strs [some "cas_ldw"])]

/-! Lemmas about the loader. -/

theorem mem_of_mem_dedupFirstAux {α : Type} [DecidableEq α] {x : α} :
    ∀ (l seen : List α), x ∈ dedupFirstAux seen l → x ∈ l := by
  intro l
  induction l with
  | nil => intro seen h; simp [dedupFirstAux] at h
  | cons a t ih =>
    intro seen h
    simp only [dedupFirstAux] at h
    by_cases hs : a ∈ seen
    · rw [if_pos hs] at h
      exact List.mem_cons_of_mem a (ih seen h)
    · rw [if_neg hs] at h
      rcases List.mem_cons.mp h with h1 | h2
      · exact h1 ▸ List.mem_cons_self a t
      · exact List.mem_cons_of_mem a (ih (a :: seen) h2)

theorem not_mem_dedupFirstAux {α : Type} [DecidableEq α] {x : α} :
    ∀ (l seen : List α), x ∈ seen → x ∉ dedupFirstAux seen l := by
  intro l
  induction l with
  | nil => intro seen hx h; simp [dedupFirstAux] at h
  | cons a t ih =>
    intro seen hx h
    simp only [dedupFirstAux] at h
    by_cases hs : a ∈ seen
    · rw [if_pos hs] at h
      exact ih seen hx h
    · rw [if_neg hs] at h
      rcases List.mem_cons.mp h with h1 | h2
      · exact hs (h1 ▸ hx)
      · exact ih (a :: seen) (List.mem_cons_of_mem a hx) h2

theorem nodup_dedupFirstAux {α : Type} [DecidableEq α] :
    ∀ (l seen : List α), (dedupFirstAux seen l).Nodup := by
  intro l
  induction l with
  | nil => intro seen; simp [dedupFirstAux]
  | cons a t ih =>
    intro seen
    simp only [dedupFirstAux]
    by_cases hs : a ∈ seen
    · rw [if_pos hs]; exact ih seen
    · rw [if_neg hs]
      exact List.nodup_cons.mpr
        ⟨not_mem_dedupFirstAux t (a :: seen) (List.mem_cons_self a seen),
         ih (a :: seen)⟩

theorem nodup_dropDuplicates {α : Type} [DecidableEq α] (l : List α) :
    (dropDuplicates l).Nodup := nodup_dedupFirstAux l []

theorem mem_of_mem_dropDuplicates {α : Type} [DecidableEq α] {x : α}
    {l : List α} (h : x ∈ dropDuplicates l) : x ∈ l :=
  mem_of_mem_dedupFirstAux l [] h

theorem nodup_sampleIdx {α : Type} {l : List α} (hl : l.Nodup)
    (idxs : List Nat) : (sampleIdx idxs l).Nodup := by
  refine List.Nodup.filterMap ?_ (List.nodup_dedup idxs)
  intro i j a hi hj
  rw [Option.mem_def] at hi hj
  have hi' : l[i]? = some a := by rw [← List.get?_eq_getElem?]; exact hi
  have hj' : l[j]? = some a := by rw [← List.get?_eq_getElem?]; exact hj
  have h1 : i < l.length := by
    rcases List.get?_eq_some.mp hi with ⟨h, _⟩
    exact h
  exact List.getElem?_inj h1 hl (hi'.trans hj'.symm)

theorem mem_of_mem_sampleIdx {α : Type} {x : α} {l : List α}
    {idxs : List Nat} (h : x ∈ sampleIdx idxs l) : x ∈ l := by
  rcases List.mem_filterMap.mp h with ⟨i, _, hget⟩
  exact List.get?_mem hget

theorem colIndex?_eq_none {c : String} :
    ∀ {l : List String}, c ∉ l → colIndex? l c = none := by
  intro l
  induction l with
  | nil => intro _; rfl
  | cons c0 rest ih =>
    intro h
    have h0 : ¬ c0 = c := fun he => h (List.mem_cons.mpr (Or.inl he.symm))
    have h1 : c ∉ rest := fun hm => h (List.mem_cons_of_mem c0 hm)
    simp [colIndex?, h0, ih h1]

/-- C1: the dataset produced by the Loader has pairwise-distinct rows and
no row with a missing value in any column: duplicate removal and null
dropping run before the seeded 1% sample is drawn, and sampling a subset
preserves both properties. -/
theorem c1_load_nodup_nonull (a b : DataFrame) (idxs : List Nat) :
    (load_data a b idxs).rows.Nodup ∧
    ∀ r ∈ (load_data a b idxs).rows, hasNull r = false := by
  constructor
  · exact nodup_sampleIdx ((nodup_dropDuplicates _).filter _) idxs
  · intro r hr
    have h2 := mem_of_mem_sampleIdx hr
    have h3 := List.mem_filter.mp h2
    simpa using h3.2

/-- C1 witness: a concrete loader run; the membership hypothesis is
discharged on its single surviving row. -/
theorem c1_witness :
    (load_data exC1a exC1b [0]).rows.Nodup ∧
    hasNull [some (Cell.num 50)] = false := by
  refine ⟨(c1_load_nodup_nonull exC1a exC1b [0]).1, ?_⟩
  exact (c1_load_nodup_nonull exC1a exC1b [0]).2 [some (Cell.num 50)]
    (by decide)

/-- C3 amended: on two sources with zero overlapping schema the loader
does not fail: `pd.concat` unions the columns, every concatenated row
then has missing values at the other file's columns, `dropna` removes
every row, and an empty dataset is returned; no FormatError is raised
before (or during) loading. -/
theorem c3_amended_disjoint_schema_empty (a b : DataFrame)
    (idxs : List Nat) (ha : a.cols ≠ []) (hb : b.cols ≠ [])
    (hdisj : ∀ c ∈ a.cols, c ∉ b.cols) :
    (load_data a b idxs).rows = [] := by
  have hnull : ∀ r ∈ (concatF a b).rows, hasNull r = true := by
    intro r hr
    simp only [concatF, List.mem_append, List.mem_map] at hr
    have key : (none : Option Cell) ∈ r := by
      rcases hr with ⟨r0, _, hval⟩ | ⟨r0, _, hval⟩
      · obtain ⟨c, hc⟩ := List.exists_mem_of_ne_nil b.cols hb
        have hca : c ∉ a.cols := fun hmem => hdisj c hmem hc
        have hcnc : c ∈ concatCols a.cols b.cols := by
          simp only [concatCols, List.mem_append, List.mem_filter]
          exact Or.inr ⟨hc, by simpa using hca⟩
        rw [← hval]
        simp only [reindexRow, List.mem_map]
        exact ⟨c, hcnc, by rw [colIndex?_eq_none hca]⟩
      · obtain ⟨c, hc⟩ := List.exists_mem_of_ne_nil a.cols ha
        have hcb : c ∉ b.cols := hdisj c hc
        have hcnc : c ∈ concatCols a.cols b.cols := by
          simp only [concatCols, List.mem_append]
          exact Or.inl hc
        rw [← hval]
        simp only [reindexRow, List.mem_map]
        exact ⟨c, hcnc, by rw [colIndex?_eq_none hcb]⟩
    simp only [hasNull, List.any_eq_true]
    exact ⟨none, key, rfl⟩
  have hget : ∀ i : Nat, ([] : List Row).get? i = none := fun i => by
    cases i <;> rfl
  have h2 : dropna (dropDuplicates (concatF a b).rows) = [] := by
    rw [dropna, List.filter_eq_nil_iff]
    intro r hr
    simp [hnull r (mem_of_mem_dropDuplicates hr)]
  show sampleIdx idxs (dropna (dropDuplicates (concatF a b).rows)) = []
  rw [h2]
  exact List.filterMap_eq_nil_iff.mpr (fun i _ => hget i)

/-- C3 amended witness: the disjoint-schema hypotheses hold for the
concrete pair and the loader returns an empty dataset. -/
theorem c3_witness :
    (exA.cols ≠ [] ∧ exB.cols ≠ [] ∧ ∀ c ∈ exA.cols, c ∉ exB.cols) ∧
    (load_data exA exB [0]).rows = [] := by
  refine ⟨⟨by decide, by decide, by decide⟩, ?_⟩
  exact c3_amended_disjoint_schema_empty exA exB [0] (by decide)
    (by decide) (by decide)

/-- C3 counterexample: on the concrete zero-overlap pair the spec's
Loader contract produces a FormatError, but the code's `load_data`
returns normally, yielding the union schema with an empty row list — no
failure happens before aggregation. -/
theorem c3_counterexample :
    load_data_SPEC exA exB [0] = Except.error "FormatError" ∧
    load_data exA exB [0] = ⟨["A", "B"], []⟩ := by
  constructor
  · rfl
  · rfl

/-- C2: `categorize_speed` maps every speed to exactly one of the three
labels, with lower-bound-inclusive bands: below 60 is Low, from 60 up to
but excluding 80 is Medium, and from 80 on is High. -/
theorem c2_categorize_speed_policy (s : ℚ) :
    (s < 60 → categorize_speed s = "Low") ∧
    (60 ≤ s → s < 80 → categorize_speed s = "Medium") ∧
    (80 ≤ s → categorize_speed s = "High") ∧
    (categorize_speed s = "Low" ∨ categorize_speed s = "Medium" ∨
      categorize_speed s = "High") := by
  refine ⟨?_, ?_, ?_, ?_⟩
  · intro h; simp [categorize_speed, h]
  · intro h1 h2
    have h0 : ¬ s < 60 := not_lt.mpr h1
    simp [categorize_speed, h0, h1, h2]
  · intro h
    have h1 : ¬ s < 60 := not_lt.mpr (le_trans (by norm_num) h)
    have h2 : ¬ (60 ≤ s ∧ s < 80) := fun hc => absurd h (not_le.mpr hc.2)
    simp [categorize_speed, h1, h2]
  · by_cases h1 : s < 60
    · left; simp [categorize_speed, h1]
    · by_cases h2 : (60 : ℚ) ≤ s ∧ s < 80
      · right; left; simp [categorize_speed, h1, h2]
      · right; right; simp [categorize_speed, h1, h2]

/-- C2 witness: the four boundary evaluations named by the claim. -/
theorem c2_witness :
    categorize_speed (599/10) = "Low" ∧ categorize_speed 60 = "Medium" ∧
    categorize_speed (799/10) = "Medium" ∧ categorize_speed 80 = "High" :=
  ⟨(c2_categorize_speed_policy (599/10)).1 (by norm_num),
   (c2_categorize_speed_policy 60).2.1 (by norm_num) (by norm_num),
   (c2_categorize_speed_policy (799/10)).2.1 (by norm_num) (by norm_num),
   (c2_categorize_speed_policy 80).2.2.1 (by norm_num)⟩

/-- C5: the safety subset is a subset of the loaded dataset's rows, and
every record in it carries one of exactly the five safety alert labels
(so no record with any other alert value appears in it). -/
theorem c5_safety_subset (df : DataFrame) :
    (∀ r ∈ safetyFilter df, r ∈ df.rows) ∧
    (∀ r ∈ safetyFilter df, ∃ c ∈ safetyAlerts,
      getCell df.cols r "Alert" = some c) := by
  constructor
  · intro r hr
    exact (List.mem_filter.mp hr).1
  · intro r hr
    have h2 := (List.mem_filter.mp hr).2
    rcases hc : getCell df.cols r "Alert" with _ | c
    · rw [hc] at h2; simp [cellIsin] at h2
    · rw [hc] at h2
      simp only [cellIsin, decide_eq_true_eq] at h2
      exact ⟨c, h2, rfl⟩

/-- C5 witness: the concrete safety row is among the frame's rows and
carries a safety alert. -/
theorem c5_witness :
    [some (Cell.str "cas_ldw")] ∈ dfS.rows ∧
    ∃ c ∈ safetyAlerts,
      getCell dfS.cols [some (Cell.str "cas_ldw")] "Alert" = some c :=
  ⟨(c5_safety_subset dfS).1 [some (Cell.str "cas_ldw")] (by decide),
   (c5_safety_subset dfS).2 [some (Cell.str "cas_ldw")] (by decide)⟩

/-- C8: the `/data/coordinates` record mapping substitutes null-safe
defaults (null coordinates, zero speed, empty-string text) for missing
fields, passes present fields through unchanged, and produces one record
per row, never failing. -/
theorem c8_coordinates_defaults
    (alert date time lat long vehicle speed : Option Cell) :
    ((long = none →
        (coordRecord alert date time lat long vehicle speed).long = none) ∧
     (lat = none →
        (coordRecord alert date time lat long vehicle speed).lat = none) ∧
     (speed = none →
        (coordRecord alert date time lat long vehicle speed).speed =
          Cell.num 0) ∧
     (alert = none →
        (coordRecord alert date time lat long vehicle speed).alert =
          Cell.str "") ∧
     (date = none →
        (coordRecord alert date time lat long vehicle speed).date =
          Cell.str "") ∧
     (time = none →
        (coordRecord alert date time lat long vehicle speed).time =
          Cell.str "") ∧
     (vehicle = none →
        (coordRecord alert date time lat long vehicle speed).vehicle =
          Cell.str "")) ∧
    ((∀ v, long = some v →
        (coordRecord alert date time lat long vehicle speed).long = some v) ∧
     (∀ v, lat = some v →
        (coordRecord alert date time lat long vehicle speed).lat = some v) ∧
     (∀ v, speed = some v →
        (coordRecord alert date time lat long vehicle speed).speed = v) ∧
     (∀ v, alert = some v →
        (coordRecord alert date time lat long vehicle speed).alert = v) ∧
     (∀ v, date = some v →
        (coordRecord alert date time lat long vehicle speed).date = v) ∧
     (∀ v, time = some v →
        (coordRecord alert date time lat long vehicle speed).time = v) ∧
     (∀ v, vehicle = some v →
        (coordRecord alert date time lat long vehicle speed).vehicle = v)) ∧
    (∀ df : DataFrame, (get_coordinates df).length = df.rows.length) :=
  ⟨⟨fun h => h, fun h => h, fun h => by subst h; rfl, fun h => by subst h; rfl,
    fun h => by subst h; rfl, fun h => by subst h; rfl, fun h => by subst h; rfl⟩,
   ⟨fun v h => h, fun v h => h, fun v h => by subst h; rfl, fun v h => by subst h; rfl,
    fun v h => by subst h; rfl, fun v h => by subst h; rfl, fun v h => by subst h; rfl⟩,
   fun df => by simp [get_coordinates]⟩

/-- C8 witness: concrete missing coordinates and speed take their
defaults, and a concrete present alert passes through. -/
theorem c8_witness :
    (coordRecord none none none none none none none).long = none ∧
    (coordRecord none none none none none none none).speed = Cell.num 0 ∧
    (coordRecord (some (Cell.str "cas_ldw")) none none none none none
      none).alert = Cell.str "cas_ldw" :=
  ⟨(c8_coordinates_defaults none none none none none none none).1.1 rfl,
   (c8_coordinates_defaults none none none none none none none).1.2.2.1 rfl,
   (c8_coordinates_defaults (some (Cell.str "cas_ldw")) none none none none
     none none).2.1.2.2.2.1 (Cell.str "cas_ldw") rfl⟩

/-- C4: on an empty loaded dataset, and on any dataset whose safety
subset is empty, the modelled aggregators complete (they are total
functions) and produce empty chart data: no spatial points and a NaN
center, an empty safety pie, an empty speed-frequency table, no trend
line, empty box data, and an empty driver pie. -/
theorem c4_empty_safe (df : DataFrame) :
    (df.rows = [] → safetyFilter df = []) ∧
    (df.rows = [] →
      spatial_points df = [] ∧ spatial_center df = (none, none)) ∧
    (safetyFilter df = [] →
      safety_counts df = [] ∧ safety_speed_freq df = [] ∧
      safety_trend df = none ∧ safety_box df = []) ∧
    (df.rows = [] → driver_alert_counts df = []) := by
  refine ⟨?_, ?_, ?_, ?_⟩
  · intro h
    simp [safetyFilter, h]
  · intro h
    refine ⟨by simp [spatial_points, h], ?_⟩
    simp [spatial_center, latVals, longVals, meanQ, h]
  · intro h
    have h2 : safety_speed_freq df = [] := by
      simp only [safety_speed_freq, h]
      rfl
    have h3 : safety_trend df = none := by
      simp only [safety_trend, h2]
      rfl
    refine ⟨?_, h2, h3, ?_⟩
    · simp only [safety_counts, h]
      rfl
    · simp only [safety_box, h]
      rfl
  · intro h
    simp only [driver_alert_counts, h]
    rfl

/-- C4 witness: the emptiness clauses on a concrete empty loaded frame. -/
theorem c4_witness :
    spatial_points dfEmpty = [] ∧ spatial_center dfEmpty = (none, none) ∧
    safety_counts dfEmpty = [] ∧ safety_speed_freq dfEmpty = [] ∧
    safety_trend dfEmpty = none ∧ safety_box dfEmpty = [] ∧
    driver_alert_counts dfEmpty = [] :=
  ⟨((c4_empty_safe dfEmpty).2.1 rfl).1,
   ((c4_empty_safe dfEmpty).2.1 rfl).2,
   ((c4_empty_safe dfEmpty).2.2.1 (by rfl)).1,
   ((c4_empty_safe dfEmpty).2.2.1 (by rfl)).2.1,
   ((c4_empty_safe dfEmpty).2.2.1 (by rfl)).2.2.1,
   ((c4_empty_safe dfEmpty).2.2.1 (by rfl)).2.2.2,
   (c4_empty_safe dfEmpty).2.2.2 rfl⟩

/-- C10: `/speed-analysis` sorts the rows while `Time` is still raw text:
the chart's row order is a permutation of the loaded rows sorted by the
lexicographic order of the original time strings, and the typed time
coercion is applied only afterwards, position by position — unparseable
entries keep their lexicographic position as `none`. -/
theorem c10_sorted_by_raw_time_strings (df : DataFrame)
    (pt : String → Option ℚ) :
    List.Perm (speed_analysis_sorted df) df.rows ∧
    List.Sorted (rowTimeLE df.cols) (speed_analysis_sorted df) ∧
    ∀ i : Nat, (speed_analysis_timeAxis pt df)[i]? =
      ((speed_analysis_sorted df)[i]?).map
        (fun r => parseTimeCell pt (getCell df.cols r "Time")) := by
  refine ⟨List.perm_insertionSort _ _, List.sorted_insertionSort _ _, ?_⟩
  intro i
  simp [speed_analysis_timeAxis, List.getElem?_map]

/-- C10 witness: the characterization at a concrete frame and parser. -/
theorem c10_witness :
    List.Perm (speed_analysis_sorted dfS) dfS.rows ∧
    List.Sorted (rowTimeLE dfS.cols) (speed_analysis_sorted dfS) :=
  ⟨(c10_sorted_by_raw_time_strings dfS ptEx).1,
   (c10_sorted_by_raw_time_strings dfS ptEx).2.1⟩

/-! Lemmas about column names under the frame operations. -/

theorem names_setCol_of_mem {f : TFrame} {n : String} (c : Col)
    (h : n ∈ names f) : names (setCol f n c) = names f := by
  unfold setCol
  rw [if_pos h]
  unfold names
  rw [List.map_map]
  apply List.map_congr_left
  intro p _
  by_cases hp : p.1 = n
  · simp [Function.comp, hp]
  · simp [Function.comp, hp]

theorem names_setCol_of_not_mem {f : TFrame} {n : String} (c : Col)
    (h : n ∉ names f) : names (setCol f n c) = names f ++ [n] := by
  unfold setCol
  rw [if_neg h]
  unfold names
  rw [List.map_append]
  rfl

theorem mem_names_setCol_self (f : TFrame) (n : String) (c : Col) :
    n ∈ names (setCol f n c) := by
  by_cases h : n ∈ names f
  · rw [names_setCol_of_mem c h]; exact h
  · rw [names_setCol_of_not_mem c h]
    exact List.mem_append_right _ (List.mem_cons_self n [])

theorem not_mem_names_dropCol (f : TFrame) (n : String) :
    n ∉ names (dropCol f n) := by
  intro h
  simp only [names, dropCol, List.mem_map] at h
  rcases h with ⟨p, hp, hfst⟩
  have h2 := (List.mem_filter.mp hp).2
  rw [hfst] at h2
  simp at h2

theorem mem_names_of_mem_numericCols {f : TFrame} {n : String}
    {l : List (Option ℚ)} (h : (n, l) ∈ numericCols f) : n ∈ names f := by
  rcases List.mem_filterMap.mp h with ⟨p, hp, hval⟩
  rcases p with ⟨pn, pc⟩
  cases pc with
  | nums m =>
    simp only [Option.some.injEq, Prod.mk.injEq] at hval
    exact hval.1 ▸ List.mem_map.mpr ⟨(pn, Col.nums m), hp, rfl⟩
  | strs m => simp at hval
  | times m => simp at hval

theorem correlation_matrix_def (pd : String → Option ℚ) (dn : ℚ → String)
    (hr : ℚ → ℚ) (pt : String → Option ℚ) (f : TFrame) :
    correlation_matrix pd dn hr pt f =
      corrMatrix (numericCols (correlation_df1 pd dn hr pt f)) := rfl

theorem corrMatrix_rowLabels (cs : List (String × List (Option ℚ))) :
    (corrMatrix cs).rowLabels = cs.map Prod.fst := rfl

theorem corrMatrix_colLabels (cs : List (String × List (Option ℚ))) :
    (corrMatrix cs).colLabels = cs.map Prod.fst := rfl

theorem corrMatrix_entry (cs : List (String × List (Option ℚ)))
    (i j : Nat) : (corrMatrix cs).entry i j = corrEntry cs i j := rfl

/-- C7: the correlation route derives an `HourOfDay` column — present in
the transformed frame just before the drop — and then drops it, so the
matrix handed back carries no `HourOfDay` row or column label. -/
theorem c7_hourofday_dropped (pd : String → Option ℚ) (dn : ℚ → String)
    (hr : ℚ → ℚ) (pt : String → Option ℚ) (f : TFrame) :
    "HourOfDay" ∈ names (correlation_df1_preDrop pd dn hr pt f) ∧
    "HourOfDay" ∉ (correlation_matrix pd dn hr pt f).rowLabels ∧
    "HourOfDay" ∉ (correlation_matrix pd dn hr pt f).colLabels := by
  have hdrop : ∀ hmem : "HourOfDay" ∈
      (numericCols (correlation_df1 pd dn hr pt f)).map Prod.fst, False := by
    intro hmem
    rcases List.mem_map.mp hmem with ⟨p, hp, hfst⟩
    rcases p with ⟨pn, pl⟩
    cases hfst
    exact not_mem_names_dropCol (correlation_df1_preDrop pd dn hr pt f)
      "HourOfDay" (mem_names_of_mem_numericCols hp)
  refine ⟨?_, ?_, ?_⟩
  · show "HourOfDay" ∈ names (setCol _ "HourOfDay" _)
    exact mem_names_setCol_self _ "HourOfDay" _
  · rw [correlation_matrix_def, corrMatrix_rowLabels]
    exact fun hmem => hdrop hmem
  · rw [correlation_matrix_def, corrMatrix_colLabels]
    exact fun hmem => hdrop hmem

/-- C7 witness: the derivation-then-drop at a concrete frame. -/
theorem c7_witness :
    "HourOfDay" ∈ names (correlation_df1_preDrop pdEx dnEx hrEx ptEx fC6) ∧
    "HourOfDay" ∉ (correlation_matrix pdEx dnEx hrEx ptEx fC6).rowLabels :=
  ⟨(c7_hourofday_dropped pdEx dnEx hrEx ptEx fC6).1,
   (c7_hourofday_dropped pdEx dnEx hrEx ptEx fC6).2.1⟩

/-- Helper: the column names after the `/alert-frequency` mutations, for
any assigned column contents. -/
theorem names_afd_general (f : TFrame) (c1 c2 c3 c4 : Col)
    (hD : "Date" ∈ names f) (hT : "Time" ∈ names f)
    (hS : "Speed" ∈ names f) (hW : "DayOfWeek" ∉ names f) :
    names (setCol (setCol (setCol (setCol f "Date" c1) "DayOfWeek" c2)
      "Time" c3) "Speed" c4) = names f ++ ["DayOfWeek"] := by
  have h1 : names (setCol f "Date" c1) = names f :=
    names_setCol_of_mem c1 hD
  have h2 : names (setCol (setCol f "Date" c1) "DayOfWeek" c2) =
      names f ++ ["DayOfWeek"] := by
    rw [names_setCol_of_not_mem c2 (by rw [h1]; exact hW), h1]
  have h3 : names (setCol (setCol (setCol f "Date" c1) "DayOfWeek" c2)
      "Time" c3) = names f ++ ["DayOfWeek"] := by
    rw [names_setCol_of_mem c3
      (by rw [h2]; exact List.mem_append_left _ hT), h2]
  rw [names_setCol_of_mem c4
    (by rw [h3]; exact List.mem_append_left _ hS), h3]

/-- C9 amended: the loaded frame is not shared across requests (each
request reloads from disk), and `/correlation-analysis` leaves it
unchanged because it works on `df.copy()`; but universal immutability
fails: `alert_frequency` and `home` append a derived `DayOfWeek` column
to the loaded frame in place (besides coercing `Date`/`Time`/`Speed`),
and `speed_analysis` coerces `Speed` in place, preserving only the
column names. -/
theorem c9_amended_mutation (pd pt pf : String → Option ℚ)
    (dn : ℚ → String) (f : TFrame) :
    correlation_dfFinal f = f ∧
    ("Date" ∈ names f → "Time" ∈ names f → "Speed" ∈ names f →
      "DayOfWeek" ∉ names f →
      names (alert_frequency_dfFinal pd pt dn pf f) =
        names f ++ ["DayOfWeek"]) ∧
    ("Date" ∈ names f → "DayOfWeek" ∉ names f →
      names (home_dfFinal pd dn f) = names f ++ ["DayOfWeek"]) ∧
    ("Speed" ∈ names f →
      names (speed_analysis_dfFinal pf f) = names f) := by
  refine ⟨rfl, ?_, ?_, ?_⟩
  · intro hD hT hS hW
    exact names_afd_general f _ _ _ _ hD hT hS hW
  · intro hD hW
    show names (setCol (setCol f "Date" _) "DayOfWeek" _) = _
    rw [names_setCol_of_not_mem _
        (by rw [names_setCol_of_mem _ hD]; exact hW),
      names_setCol_of_mem _ hD]
  · intro hS
    exact names_setCol_of_mem _ hS

/-- C9 amended witness: on the concrete loaded frame the correlation
route changes nothing while the alert-frequency route appends
`DayOfWeek`. -/
theorem c9_witness :
    correlation_dfFinal fC9 = fC9 ∧
    names (alert_frequency_dfFinal pdEx ptEx dnEx pfEx fC9) =
      names fC9 ++ ["DayOfWeek"] :=
  ⟨(c9_amended_mutation pdEx ptEx pfEx dnEx fC9).1,
   (c9_amended_mutation pdEx ptEx pfEx dnEx fC9).2.1 (by decide) (by decide)
     (by decide) (by decide)⟩

/-- C9 counterexample: `/alert-frequency` mutates the loaded frame in
place — after the handler's normalization steps the concrete loaded
frame has gained a `DayOfWeek` column, so it no longer holds exactly the
columns it held immediately after loading. -/
theorem c9_counterexample :
    alert_frequency_dfFinal pdEx ptEx dnEx pfEx fC9 ≠ fC9 := by
  decide

/-! Lemmas about the Pearson coefficient. -/

theorem somesPairs_swap (x y : List (Option ℚ)) :
    somesPairs y x = (somesPairs x y).map Prod.swap := by
  unfold somesPairs
  rw [← List.zip_swap x y, List.filterMap_map, List.map_filterMap]
  congr 1
  funext p
  rcases p with ⟨o1, o2⟩
  cases o1 <;> cases o2 <;> rfl

theorem map_swap_fst (ps : List (ℚ × ℚ)) :
    (ps.map Prod.swap).map Prod.fst = ps.map Prod.snd := by
  rw [List.map_map]
  rfl

theorem map_swap_snd (ps : List (ℚ × ℚ)) :
    (ps.map Prod.swap).map Prod.snd = ps.map Prod.fst := by
  rw [List.map_map]
  rfl

theorem meanFst_swap (ps : List (ℚ × ℚ)) :
    meanFst (ps.map Prod.swap) = meanSnd ps := by
  unfold meanFst meanSnd
  rw [map_swap_fst, List.length_map]

theorem meanSnd_swap (ps : List (ℚ × ℚ)) :
    meanSnd (ps.map Prod.swap) = meanFst ps := by
  unfold meanFst meanSnd
  rw [map_swap_snd, List.length_map]

theorem ssFst_swap (ps : List (ℚ × ℚ)) :
    ssFst (ps.map Prod.swap) = ssSnd ps := by
  unfold ssFst ssSnd
  rw [meanFst_swap, List.map_map]
  rfl

theorem ssSnd_swap (ps : List (ℚ × ℚ)) :
    ssSnd (ps.map Prod.swap) = ssFst ps := by
  unfold ssFst ssSnd
  rw [meanSnd_swap, List.map_map]
  rfl

theorem sCross_swap (ps : List (ℚ × ℚ)) :
    sCross (ps.map Prod.swap) = sCross ps := by
  unfold sCross
  rw [meanFst_swap, meanSnd_swap, List.map_map]
  congr 1
  apply List.map_congr_left
  intro p _
  show (p.2 - meanSnd ps) * (p.1 - meanFst ps) =
    (p.1 - meanFst ps) * (p.2 - meanSnd ps)
  exact mul_comm _ _

theorem pearson_symm (x y : List (Option ℚ)) :
    pearson x y = pearson y x := by
  unfold pearson
  rw [somesPairs_swap x y, ssFst_swap, ssSnd_swap, sCross_swap]
  by_cases h : ssFst (somesPairs x y) = 0 ∨ ssSnd (somesPairs x y) = 0
  · rw [if_pos h, if_pos h.symm]
  · rw [if_neg h, if_neg (fun hc => h hc.symm), mul_comm]

theorem somesPairs_self (x : List (Option ℚ)) :
    somesPairs x x = (x.filterMap id).map (fun a => (a, a)) := by
  induction x with
  | nil => rfl
  | cons o t ih =>
    cases o with
    | none => simpa [somesPairs, List.filterMap_cons] using ih
    | some a => simpa [somesPairs, List.filterMap_cons] using ih

theorem meanFst_diag (x : List (Option ℚ)) :
    meanFst ((x.filterMap id).map (fun a => (a, a))) =
      meanSnd ((x.filterMap id).map (fun a => (a, a))) := by
  unfold meanFst meanSnd
  rw [List.map_map, List.map_map]
  rfl

theorem ssFstSnd_diag (x : List (Option ℚ)) :
    ssFst ((x.filterMap id).map (fun a => (a, a))) =
      ssSnd ((x.filterMap id).map (fun a => (a, a))) := by
  unfold ssFst ssSnd
  rw [meanFst_diag, List.map_map, List.map_map]
  rfl

theorem sCross_diag (x : List (Option ℚ)) :
    sCross ((x.filterMap id).map (fun a => (a, a))) =
      ssFst ((x.filterMap id).map (fun a => (a, a))) := by
  unfold sCross ssFst
  rw [← meanFst_diag, List.map_map, List.map_map]
  congr 1
  apply List.map_congr_left
  intro a _
  show (a - meanFst ((x.filterMap id).map (fun a => (a, a)))) *
      (a - meanFst ((x.filterMap id).map (fun a => (a, a)))) =
    (a - meanFst ((x.filterMap id).map (fun a => (a, a))))^2
  exact (pow_two _).symm

theorem ss_diag_eq (x : List (Option ℚ)) :
    ssSnd (somesPairs x x) = ssFst (somesPairs x x) := by
  rw [somesPairs_self]
  exact (ssFstSnd_diag x).symm

theorem sCross_diag_eq (x : List (Option ℚ)) :
    sCross (somesPairs x x) = ssFst (somesPairs x x) := by
  rw [somesPairs_self]
  exact sCross_diag x

theorem ssFst_nonneg (ps : List (ℚ × ℚ)) : 0 ≤ ssFst ps := by
  unfold ssFst
  apply List.sum_nonneg
  intro a ha
  rcases List.mem_map.mp ha with ⟨p, _, hval⟩
  rw [← hval]
  exact sq_nonneg _

theorem pearson_self (x : List (Option ℚ)) (h : diagSS x ≠ 0) :
    pearson x x = some 1 := by
  unfold diagSS at h
  unfold pearson
  have hcond : ¬ (ssFst (somesPairs x x) = 0 ∨
      ssSnd (somesPairs x x) = 0) := by
    rw [ss_diag_eq]
    simpa using h
  rw [if_neg hcond, sCross_diag_eq, ss_diag_eq,
    Real.mul_self_sqrt (by exact_mod_cast ssFst_nonneg _),
    div_self (by exact_mod_cast h)]

/-- C6 amended: the matrix of `/correlation-analysis` is always square
(the row and column labels coincide) and symmetric; a diagonal entry
equals 1 whenever its column has nonzero centered sum of squares, while
a constant column — or a frame with fewer than two complete rows —
yields a NaN diagonal entry instead of 1. -/
theorem c6_amended_corr_matrix (pd : String → Option ℚ) (dn : ℚ → String)
    (hr : ℚ → ℚ) (pt : String → Option ℚ) (f : TFrame) :
    (correlation_matrix pd dn hr pt f).rowLabels =
      (correlation_matrix pd dn hr pt f).colLabels ∧
    (∀ i j : Nat, (correlation_matrix pd dn hr pt f).entry i j =
      (correlation_matrix pd dn hr pt f).entry j i) ∧
    (∀ i : Nat,
      diagSS (colDataAt (numericCols (correlation_df1 pd dn hr pt f)) i) ≠ 0 →
      (correlation_matrix pd dn hr pt f).entry i i = some 1) := by
  rw [correlation_matrix_def]
  refine ⟨rfl, ?_, ?_⟩
  · intro i j
    rw [corrMatrix_entry, corrMatrix_entry]
    exact pearson_symm _ _
  · intro i h
    rw [corrMatrix_entry]
    exact pearson_self _ h

/-- C6 amended witness: the `Lat` column of the concrete frame has
nonzero centered sum of squares and its diagonal entry is 1. -/
theorem c6_witness :
    diagSS (colDataAt (numericCols
      (correlation_df1 pdEx dnEx hrEx ptEx fC6)) 1) ≠ 0 ∧
    (correlation_matrix pdEx dnEx hrEx ptEx fC6).entry 1 1 = some 1 := by
  have hcol1 : colDataAt (numericCols
      (correlation_df1 pdEx dnEx hrEx ptEx fC6)) 1 = [some 1, some 2] := by
    decide
  have hsp : somesPairs [some (1 : ℚ), some 2] [some (1 : ℚ), some 2] =
      [(1, 1), (2, 2)] := by decide
  have hdiag : diagSS (colDataAt (numericCols
      (correlation_df1 pdEx dnEx hrEx ptEx fC6)) 1) ≠ 0 := by
    rw [hcol1]
    unfold diagSS
    rw [hsp]
    norm_num [ssFst, meanFst]
  exact ⟨hdiag,
    (c6_amended_corr_matrix pdEx dnEx hrEx ptEx fC6).2.2 1 hdiag⟩

/-- C6 counterexample: on the concrete loaded frame whose `Speed` column
is constant, the diagonal entry of the returned correlation matrix at
the `Speed` label is NaN (`none`), not 1 — refuting the universal
unit-diagonal claim. -/
theorem c6_counterexample :
    (correlation_matrix pdEx dnEx hrEx ptEx fC6).rowLabels[3]? =
      some "Speed" ∧
    (correlation_matrix pdEx dnEx hrEx ptEx fC6).entry 3 3 ≠ some 1 ∧
    (correlation_matrix pdEx dnEx hrEx ptEx fC6).entry 3 3 = none := by
  have hcol : colDataAt (numericCols
      (correlation_df1 pdEx dnEx hrEx ptEx fC6)) 3 = [some 50, some 50] := by
    decide
  have hsp : somesPairs [some (50 : ℚ), some 50] [some (50 : ℚ), some 50] =
      [(50, 50), (50, 50)] := by decide
  have hss : ssFst (somesPairs [some (50 : ℚ), some 50]
      [some (50 : ℚ), some 50]) = 0 := by
    rw [hsp]
    norm_num [ssFst, meanFst]
  have hnone : (correlation_matrix pdEx dnEx hrEx ptEx fC6).entry 3 3 =
      none := by
    rw [correlation_matrix_def, corrMatrix_entry]
    show pearson _ _ = none
    rw [hcol]
    unfold pearson
    rw [if_pos (Or.inl hss)]
  refine ⟨?_, ?_, hnone⟩
  · rw [correlation_matrix_def, corrMatrix_rowLabels]
    decide
  · rw [hnone]
    simp

end VAlert
